import Mathlib

/-!
Shallow embedding of the generic actor runtime (`actor-framework` crate):
the worker loop of `ResourceActor::run` (src/crates/actor-framework/src/actor.rs),
the client call shape of `ResourceClient` (src/crates/actor-framework/src/client.rs),
and the mock double (`MockClient`, src/crates/actor-framework/src/mock.rs).

The `ActorEntity` trait is modelled by a record of functions (`ActorImpl`).
Rust hooks with `&mut self` returning `Result<(), Error>` are modelled as
functions returning the (possibly mutated) entity together with an optional
error, because in Rust a hook may mutate `self` in place and still return
`Err`.  `T::Id` is fixed to the generated `u32` value (`Nat` below, reduced
modulo `2 ^ 32` where the counter is incremented, matching release-mode
wrapping of `self.next_id += 1`).  The `HashMap` store is modelled as an
association list with unique-key semantics.
-/

set_option autoImplicit false

universe u

variable {Entity Create Update Action ActionResult Context Error : Type}

/-- Framework-level errors, from `FrameworkError` in error.rs.  `NotFound`
carries the looked-up id (the Rust code renders it to a `String` via
`Display`); `EntityError` carries the wrapped entity error. -/
inductive FrameworkError (Error : Type) where
  | ActorClosed
  | ActorDropped
  | NotFound (id : Nat)
  | EntityError (e : Error)
deriving DecidableEq

/-- Requests, from `ResourceRequest<T>` in message.rs (the one-shot reply
channel is left implicit: `handleMsg` returns the value sent into it). -/
inductive Request (Create Update Action : Type) where
  | create (params : Create)
  | get (id : Nat)
  | update (id : Nat) (upd : Update)
  | delete (id : Nat)
  | action (id : Nat) (act : Action)
deriving DecidableEq

/-- Successful reply payloads of the five operations. -/
inductive Reply (Entity ActionResult : Type) where
  | created (id : Nat)
  | got (item : Option Entity)
  | updated (item : Entity)
  | deleted
  | acted (result : ActionResult)
deriving DecidableEq

/-- The `ActorEntity` trait (entity.rs) as a record of functions.
`on_create`, `on_update` and `handle_action` take `&mut self` in Rust, so
they return the new entity value alongside the hook outcome; `on_delete`
takes `&self` and cannot mutate.  `from_create_params` is the by-value
constructor. -/
structure ActorImpl (Entity Create Update Action ActionResult Context Error : Type) where
  from_create_params : Nat → Create → Except Error Entity
  on_create : Entity → Context → Entity × Option Error
  on_update : Entity → Update → Context → Entity × Option Error
  on_delete : Entity → Context → Option Error
  handle_action : Entity → Action → Context → Entity × Except Error ActionResult

/-- Association-list lookup, modelling `HashMap::get` / `get_mut`. -/
def storeGet {Entity : Type} (s : List (Nat × Entity)) (id : Nat) : Option Entity :=
  match s with
  | [] => none
  | (k, v) :: rest => if k = id then some v else storeGet rest id

/-- Association-list insert-or-replace, modelling `HashMap::insert` and the
write-back of an in-place mutation through `get_mut`. -/
def storeInsert {Entity : Type} (s : List (Nat × Entity)) (id : Nat) (v : Entity) :
    List (Nat × Entity) :=
  match s with
  | [] => [(id, v)]
  | (k, w) :: rest => if k = id then (id, v) :: rest else (k, w) :: storeInsert rest id v

/-- Association-list key removal, modelling `HashMap::remove`. -/
def storeRemove {Entity : Type} (s : List (Nat × Entity)) (id : Nat) :
    List (Nat × Entity) :=
  s.filter (fun kv => kv.1 != id)

/-- Modulus of the `u32` id counter. -/
def u32Mod : Nat := 2 ^ 32

/-- Worker state: the entity store and the `next_id : u32` counter
(`ResourceActor` fields in actor.rs). -/
structure ActorState (Entity : Type) where
  store : List (Nat × Entity)
  next_id : Nat
deriving DecidableEq

/-- State produced by `ResourceActor::new`: empty store, counter seeded at 1. -/
def initState (Entity : Type) : ActorState Entity :=
  { store := [], next_id := 1 }

/-- One iteration of the `ResourceActor::run` message loop (actor.rs),
returning the successor state and the value sent into the reply slot. -/
def handleMsg (impl : ActorImpl Entity Create Update Action ActionResult Context Error)
    (context : Context) (s : ActorState Entity) :
    Request Create Update Action →
      ActorState Entity × Except (FrameworkError Error) (Reply Entity ActionResult)
  | .create params =>
    let id := s.next_id
    let s1 : ActorState Entity := { s with next_id := (s.next_id + 1) % u32Mod }
    match impl.from_create_params id params with
    | .ok item =>
      let pr := impl.on_create item context
      match pr.2 with
      | some e => (s1, .error (.EntityError e))
      | none => ({ s1 with store := storeInsert s1.store id pr.1 }, .ok (.created id))
    | .error e => (s1, .error (.EntityError e))
  | .get id => (s, .ok (.got (storeGet s.store id)))
  | .update id upd =>
    match storeGet s.store id with
    | some item =>
      let pr := impl.on_update item upd context
      match pr.2 with
      | some e => ({ s with store := storeInsert s.store id pr.1 }, .error (.EntityError e))
      | none => ({ s with store := storeInsert s.store id pr.1 }, .ok (.updated pr.1))
    | none => (s, .error (.NotFound id))
  | .delete id =>
    match storeGet s.store id with
    | some item =>
      match impl.on_delete item context with
      | some e => (s, .error (.EntityError e))
      | none => ({ s with store := storeRemove s.store id }, .ok .deleted)
    | none => (s, .error (.NotFound id))
  | .action id act =>
    match storeGet s.store id with
    | some item =>
      let pr := impl.handle_action item act context
      ({ s with store := storeInsert s.store id pr.1 },
        match pr.2 with
        | .ok r => .ok (.acted r)
        | .error e => .error (.EntityError e))
    | none => (s, .error (.NotFound id))

/-- Sequential processing of a list of requests (the worker drains its
mailbox one message at a time), collecting the replies in order. -/
def runMsgs (impl : ActorImpl Entity Create Update Action ActionResult Context Error)
    (context : Context) :
    ActorState Entity → List (Request Create Update Action) →
      ActorState Entity × List (Except (FrameworkError Error) (Reply Entity ActionResult))
  | s, [] => (s, [])
  | s, m :: ms =>
    let step := handleMsg impl context s m
    let rest := runMsgs impl context step.1 ms
    (rest.1, step.2 :: rest.2)

/-- Ids generated for the Create requests of a run, in order.  Each Create
consumes `next_id` at the moment it is dequeued, whether or not it
succeeds. -/
def issuedIds (impl : ActorImpl Entity Create Update Action ActionResult Context Error)
    (context : Context) :
    ActorState Entity → List (Request Create Update Action) → List Nat
  | _, [] => []
  | s, m :: ms =>
    let s1 := (handleMsg impl context s m).1
    match m with
    | .create _ => s.next_id :: issuedIds impl context s1 ms
    | _ => issuedIds impl context s1 ms

/-- Number of Create requests in a list. -/
def countCreates {Create Update Action : Type} :
    List (Request Create Update Action) → Nat
  | [] => 0
  | .create _ :: ms => countCreates ms + 1
  | _ :: ms => countCreates ms

/-- Outcome of `Sender::send` on the mailbox: either the message was
enqueued, or the channel was closed (all receivers dropped). -/
inductive SendOutcome where
  | ok
  | closed
deriving DecidableEq

/-- The `ResourceClient::create` call shape (client.rs): a failed send maps
to `ActorClosed` before any reply is awaited; a reply slot dropped without a
value (`reply = none`) maps to `ActorDropped`; otherwise the worker's
`Result` is propagated verbatim. -/
def create_call {Error : Type} (send : SendOutcome)
    (reply : Option (Except (FrameworkError Error) Nat)) :
    Except (FrameworkError Error) Nat :=
  match send with
  | .closed => .error .ActorClosed
  | .ok =>
    match reply with
    | none => .error .ActorDropped
    | some r => r

/-- The `ResourceClient::get` call shape (client.rs). -/
def get_call {Entity Error : Type} (send : SendOutcome)
    (reply : Option (Except (FrameworkError Error) (Option Entity))) :
    Except (FrameworkError Error) (Option Entity) :=
  match send with
  | .closed => .error .ActorClosed
  | .ok =>
    match reply with
    | none => .error .ActorDropped
    | some r => r

/-- The `ResourceClient::update` call shape (client.rs). -/
def update_call {Entity Error : Type} (send : SendOutcome)
    (reply : Option (Except (FrameworkError Error) Entity)) :
    Except (FrameworkError Error) Entity :=
  match send with
  | .closed => .error .ActorClosed
  | .ok =>
    match reply with
    | none => .error .ActorDropped
    | some r => r

/-- The `ResourceClient::delete` call shape (client.rs). -/
def delete_call {Error : Type} (send : SendOutcome)
    (reply : Option (Except (FrameworkError Error) Unit)) :
    Except (FrameworkError Error) Unit :=
  match send with
  | .closed => .error .ActorClosed
  | .ok =>
    match reply with
    | none => .error .ActorDropped
    | some r => r

/-- The `ResourceClient::perform_action` call shape (client.rs). -/
def perform_action_call {ActionResult Error : Type} (send : SendOutcome)
    (reply : Option (Except (FrameworkError Error) ActionResult)) :
    Except (FrameworkError Error) ActionResult :=
  match send with
  | .closed => .error .ActorClosed
  | .ok =>
    match reply with
    | none => .error .ActorDropped
    | some r => r

/-- Scripted expectation entries of the mock double (`Expectation<T>` in
mock.rs): one canned `Result` per operation kind; Get/Update/Delete/Action
entries also record an id, which the responder never reads. -/
inductive Expectation (Entity ActionResult Error : Type) where
  | get (id : Nat) (response : Except (FrameworkError Error) (Option Entity))
  | create (response : Except (FrameworkError Error) Nat)
  | update (id : Nat) (response : Except (FrameworkError Error) Entity)
  | delete (id : Nat) (response : Except (FrameworkError Error) Unit)
  | action (id : Nat) (response : Except (FrameworkError Error) ActionResult)

/-- Values the mock responder sends into the reply slot, one per operation
kind (each carrying the full canned `Result`). -/
inductive MockReply (Entity ActionResult Error : Type) where
  | got (r : Except (FrameworkError Error) (Option Entity))
  | created (r : Except (FrameworkError Error) Nat)
  | updated (r : Except (FrameworkError Error) Entity)
  | deleted (r : Except (FrameworkError Error) Unit)
  | acted (r : Except (FrameworkError Error) ActionResult)

/-- One iteration of the mock double's background responder (mock.rs,
`MockClient::new`): pop the front expectation, then match the (request,
expectation) pair on operation kind only; any other combination panics
(modelled as `none`). -/
def mockRespond {Entity Create Update Action ActionResult Error : Type}
    (req : Request Create Update Action)
    (q : List (Expectation Entity ActionResult Error)) :
    Option (MockReply Entity ActionResult Error × List (Expectation Entity ActionResult Error)) :=
  match req, q.head? with
  | .get _, some (.get _ response) => some (.got response, q.tail)
  | .create _, some (.create response) => some (.created response, q.tail)
  | .update _ _, some (.update _ response) => some (.updated response, q.tail)
  | .delete _, some (.delete _ response) => some (.deleted response, q.tail)
  | .action _ _, some (.action _ response) => some (.acted response, q.tail)
  | _, _ => none

/-- The five operation kinds of the protocol. -/
inductive OpKind where
  | create
  | get
  | update
  | delete
  | action
deriving DecidableEq

/-- Operation kind of a request. -/
def reqKind {Create Update Action : Type} : Request Create Update Action → OpKind
  | .create _ => .create
  | .get _ => .get
  | .update _ _ => .update
  | .delete _ => .delete
  | .action _ _ => .action

/-- Operation kind of a scripted expectation. -/
def expKind {Entity ActionResult Error : Type} :
    Expectation Entity ActionResult Error → OpKind
  | .create _ => .create
  | .get _ _ => .get
  | .update _ _ => .update
  | .delete _ _ => .delete
  | .action _ _ => .action

/-- Condition under which `MockClient::verify` panics (mock.rs): the
expectation queue is non-empty. -/
def verifyFails {Entity ActionResult Error : Type}
    (q : List (Expectation Entity ActionResult Error)) : Bool :=
  !q.isEmpty

/-- Trivial entity implementation over unit types: every hook succeeds and
nothing is mutated.  Used to exercise the worker loop on concrete runs. -/
def unitImpl : ActorImpl Unit Unit Unit Unit Unit Unit Unit :=
  { from_create_params := fun _ _ => .ok ()
    on_create := fun e _ => (e, none)
    on_update := fun e _ _ => (e, none)
    on_delete := fun _ _ => none
    handle_action := fun e _ _ => (e, .ok ()) }

/-- Entity implementation whose constructor always fails: every Create is
rejected by `from_create_params`. -/
def failImpl : ActorImpl Unit Unit Unit Unit Unit Unit Unit :=
  { from_create_params := fun _ _ => .error ()
    on_create := fun e _ => (e, none)
    on_update := fun e _ _ => (e, none)
    on_delete := fun _ _ => none
    handle_action := fun e _ _ => (e, .ok ()) }

/-- Entity implementation over `Nat` state whose `on_update` hook mutates
`self` (increments it) and then returns `Err`, as a Rust `on_update` taking
`&mut self` may do. -/
def mutErrImpl : ActorImpl Nat Unit Unit Unit Unit Unit Unit :=
  { from_create_params := fun _ _ => .ok 0
    on_create := fun e _ => (e, none)
    on_update := fun e _ _ => (e + 1, some ())
    on_delete := fun _ _ => none
    handle_action := fun e _ _ => (e, .ok ()) }

/-- Entity implementation whose `on_delete` hook always fails. -/
def delErrImpl : ActorImpl Unit Unit Unit Unit Unit Unit Unit :=
  { from_create_params := fun _ _ => .ok ()
    on_create := fun e _ => (e, none)
    on_update := fun e _ _ => (e, none)
    on_delete := fun _ _ => some ()
    handle_action := fun e _ _ => (e, .ok ()) }

/-- Entity implementation over `Nat` state whose `handle_action` mutates
the entity and then returns `Err`. -/
def actErrImpl : ActorImpl Nat Unit Unit Unit Unit Unit Unit :=
  { from_create_params := fun _ _ => .ok 0
    on_create := fun e _ => (e, none)
    on_update := fun e _ _ => (e, none)
    on_delete := fun _ _ => none
    handle_action := fun e _ _ => (e + 1, .error ()) }

lemma u32Mod_pos : 0 < u32Mod := by norm_num [u32Mod]

lemma storeGet_storeInsert_self (s : List (Nat × Entity)) (id : Nat) (v : Entity) :
    storeGet (storeInsert s id v) id = some v := by
  induction s with
  | nil => simp [storeInsert, storeGet]
  | cons kv rest ih =>
    obtain ⟨k, w⟩ := kv
    by_cases h : k = id
    · simp [storeInsert, storeGet, h]
    · simp [storeInsert, storeGet, h, ih]

lemma storeGet_storeRemove_self (s : List (Nat × Entity)) (id : Nat) :
    storeGet (storeRemove s id) id = none := by
  induction s with
  | nil => rfl
  | cons kv rest ih =>
    obtain ⟨k, w⟩ := kv
    by_cases h : k = id
    · simpa [storeRemove, List.filter_cons, h] using ih
    · simpa [storeRemove, List.filter_cons, h, storeGet] using ih

lemma handleMsg_create_next_id
    (impl : ActorImpl Entity Create Update Action ActionResult Context Error)
    (context : Context) (s : ActorState Entity) (p : Create) :
    (handleMsg impl context s (.create p)).1.next_id = (s.next_id + 1) % u32Mod := by
  rcases hc : impl.from_create_params s.next_id p with e | item
  · simp [handleMsg, hc]
  · rcases h2 : (impl.on_create item context).2 with _ | e <;>
      simp [handleMsg, hc, h2]

lemma handleMsg_get_next_id
    (impl : ActorImpl Entity Create Update Action ActionResult Context Error)
    (context : Context) (s : ActorState Entity) (id : Nat) :
    (handleMsg impl context s (.get id)).1.next_id = s.next_id := rfl

lemma handleMsg_update_next_id
    (impl : ActorImpl Entity Create Update Action ActionResult Context Error)
    (context : Context) (s : ActorState Entity) (id : Nat) (upd : Update) :
    (handleMsg impl context s (.update id upd)).1.next_id = s.next_id := by
  rcases hg : storeGet s.store id with _ | item
  · simp [handleMsg, hg]
  · rcases h2 : (impl.on_update item upd context).2 with _ | e <;>
      simp [handleMsg, hg, h2]

lemma handleMsg_delete_next_id
    (impl : ActorImpl Entity Create Update Action ActionResult Context Error)
    (context : Context) (s : ActorState Entity) (id : Nat) :
    (handleMsg impl context s (.delete id)).1.next_id = s.next_id := by
  rcases hg : storeGet s.store id with _ | item
  · simp [handleMsg, hg]
  · rcases h2 : impl.on_delete item context with _ | e <;>
      simp [handleMsg, hg, h2]

lemma handleMsg_action_next_id
    (impl : ActorImpl Entity Create Update Action ActionResult Context Error)
    (context : Context) (s : ActorState Entity) (id : Nat) (act : Action) :
    (handleMsg impl context s (.action id act)).1.next_id = s.next_id := by
  rcases hg : storeGet s.store id with _ | item
  · simp [handleMsg, hg]
  · simp [handleMsg, hg]

lemma issuedIds_closed_form
    (impl : ActorImpl Entity Create Update Action ActionResult Context Error)
    (context : Context) :
    ∀ (ms : List (Request Create Update Action)) (s : ActorState Entity),
      s.next_id < u32Mod →
      issuedIds impl context s ms
        = (List.range (countCreates ms)).map (fun k => (s.next_id + k) % u32Mod) := by
  intro ms
  induction ms with
  | nil => intro s _; simp [issuedIds, countCreates]
  | cons m ms ih =>
    intro s h
    cases m with
    | create p =>
      have hnext := handleMsg_create_next_id impl context s p
      have h1 : ((handleMsg impl context s (.create p)).1).next_id < u32Mod := by
        rw [hnext]; exact Nat.mod_lt _ u32Mod_pos
      have hfun : (fun k => (((s.next_id + 1) % u32Mod) + k) % u32Mod)
          = fun k => (s.next_id + (k + 1)) % u32Mod := by
        funext k
        rw [Nat.mod_add_mod, Nat.add_assoc, Nat.add_comm 1 k]
      simp only [issuedIds]
      rw [ih _ h1, hnext, hfun]
      simp only [countCreates]
      rw [List.range_succ_eq_map]
      simp only [List.map_cons, List.map_map, Nat.add_zero, Nat.mod_eq_of_lt h]
      rfl
    | get id =>
      have hnext := handleMsg_get_next_id impl context s id
      simp only [issuedIds]
      rw [ih _ (by rw [hnext]; exact h), hnext]
      rfl
    | update id upd =>
      have hnext := handleMsg_update_next_id impl context s id upd
      simp only [issuedIds]
      rw [ih _ (by rw [hnext]; exact h), hnext]
      rfl
    | delete id =>
      have hnext := handleMsg_delete_next_id impl context s id
      simp only [issuedIds]
      rw [ih _ (by rw [hnext]; exact h), hnext]
      rfl
    | action id act =>
      have hnext := handleMsg_action_next_id impl context s id act
      simp only [issuedIds]
      rw [ih _ (by rw [hnext]; exact h), hnext]
      rfl

lemma range_map_mod_nodup (v c : Nat) (h : c ≤ u32Mod) :
    ((List.range c).map (fun k => (v + k) % u32Mod)).Nodup := by
  refine List.Nodup.map_on ?_ (List.nodup_range c)
  intro i hi j hj hij
  rw [List.mem_range] at hi hj
  have hmod : i % u32Mod = j % u32Mod := Nat.ModEq.add_left_cancel' v hij
  rw [Nat.mod_eq_of_lt (lt_of_lt_of_le hi h),
      Nat.mod_eq_of_lt (lt_of_lt_of_le hj h)] at hmod
  exact hmod

lemma countCreates_replicate {Create Update Action : Type} (n : Nat) (p : Create) :
    countCreates (List.replicate n (Request.create p) : List (Request Create Update Action)) = n := by
  induction n with
  | zero => rfl
  | succ n ih => simp [List.replicate_succ, countCreates, ih]

lemma unit_run_replies :
    ∀ (n : Nat) (s : ActorState Unit), s.next_id < u32Mod →
      (runMsgs unitImpl () s (List.replicate n (Request.create ()))).2
        = (List.range n).map
            (fun k => Except.ok (Reply.created ((s.next_id + k) % u32Mod))) := by
  intro n
  induction n with
  | zero => intro s _; rfl
  | succ n ih =>
    intro s h
    have hstep : handleMsg unitImpl () s (.create ())
        = (ActorState.mk (storeInsert s.store s.next_id ()) ((s.next_id + 1) % u32Mod),
           Except.ok (Reply.created s.next_id)) := by
      simp [handleMsg, unitImpl]
    have h1 : ((s.next_id + 1) % u32Mod) < u32Mod := Nat.mod_lt _ u32Mod_pos
    have hfun : (fun k => (Except.ok (Reply.created (((s.next_id + 1) % u32Mod + k) % u32Mod))
            : Except (FrameworkError Unit) (Reply Unit Unit)))
        = fun k => Except.ok (Reply.created ((s.next_id + (k + 1)) % u32Mod)) := by
      funext k
      rw [Nat.mod_add_mod, Nat.add_assoc, Nat.add_comm 1 k]
    rw [List.replicate_succ]
    simp only [runMsgs, hstep]
    rw [ih _ h1]
    rw [List.range_succ_eq_map]
    simp only [List.map_cons, List.map_map, Nat.add_zero, Nat.mod_eq_of_lt h]
    rw [show ((fun k => (Except.ok (Reply.created ((s.next_id + k) % u32Mod))
            : Except (FrameworkError Unit) (Reply Unit Unit))) ∘ Nat.succ)
        = fun k => Except.ok (Reply.created ((s.next_id + (k + 1)) % u32Mod)) from rfl]
    rw [← hfun]

/-- Claim C1 counterexample: the claim is false as stated.  Starting from the
reachable state produced by one successful Create (entity `0` stored under id
`1`), an `on_update` implementation that increments the entity and then
returns `Err` (`mutErrImpl`) leaves the stored entity changed to `1`: the
worker replies with the wrapped entity error but the store is not
bit-for-bit identical to before the call. -/
theorem update_err_mutation_leaks :
    (runMsgs mutErrImpl () (initState Nat) [Request.create ()]).1
      = ActorState.mk [(1, 0)] 2
    ∧ (handleMsg mutErrImpl () (ActorState.mk [(1, 0)] 2) (Request.update 1 ())).2
      = Except.error (FrameworkError.EntityError ())
    ∧ storeGet (handleMsg mutErrImpl () (ActorState.mk [(1, 0)] 2)
        (Request.update 1 ())).1.store 1 = some 1
    ∧ some (1 : Nat) ≠ some 0 := by
  refine ⟨rfl, rfl, rfl, by simp⟩

/-- Claim C1 (amended): for every entity in the store and every Update
request on its Id, if `on_update` returns `Err` the worker replies with the
wrapped entity error, the entry remains present under that Id and the
counter is untouched, but the stored entity is exactly the state `on_update`
left `self` in (the worker performs no rollback); it is unchanged only when
the hook did not mutate `self` before returning `Err`. -/
theorem update_err_no_rollback
    (impl : ActorImpl Entity Create Update Action ActionResult Context Error)
    (context : Context) (s : ActorState Entity) (id : Nat) (upd : Update)
    (e e' : Entity) (err : Error)
    (hget : storeGet s.store id = some e)
    (hupd : impl.on_update e upd context = (e', some err)) :
    (handleMsg impl context s (.update id upd)).2
      = Except.error (FrameworkError.EntityError err)
    ∧ (handleMsg impl context s (.update id upd)).1.store = storeInsert s.store id e'
    ∧ storeGet (handleMsg impl context s (.update id upd)).1.store id = some e'
    ∧ (handleMsg impl context s (.update id upd)).1.next_id = s.next_id
    ∧ (e' = e → storeGet (handleMsg impl context s (.update id upd)).1.store id = some e) := by
  have hpr1 : (impl.on_update e upd context).1 = e' := by rw [hupd]
  have hpr2 : (impl.on_update e upd context).2 = some err := by rw [hupd]
  refine ⟨?_, ?_, ?_, ?_, ?_⟩
  · simp [handleMsg, hget, hpr2]
  · simp [handleMsg, hget, hpr2, hpr1]
  · simp [handleMsg, hget, hpr2, hpr1, storeGet_storeInsert_self]
  · simp [handleMsg, hget, hpr2]
  · intro he
    simp [handleMsg, hget, hpr2, hpr1, he, storeGet_storeInsert_self]

/-- Witness for `update_err_no_rollback` at a concrete input: with
`mutErrImpl` and entity `0` stored under id `1`, the Update reply is the
wrapped entity error and the stored entity afterwards is the hook's
post-state `1`. -/
theorem update_err_no_rollback_witness :
    (handleMsg mutErrImpl () (ActorState.mk [(1, 0)] 2) (Request.update 1 ())).2
      = Except.error (FrameworkError.EntityError ())
    ∧ storeGet (handleMsg mutErrImpl () (ActorState.mk [(1, 0)] 2)
        (Request.update 1 ())).1.store 1 = some 1 := by
  have h := update_err_no_rollback mutErrImpl () (ActorState.mk [(1, 0)] 2) 1 ()
    0 1 () rfl rfl
  exact ⟨h.1, h.2.2.1⟩

/-- Claim C2: on a Create request, if `from_create_params` fails or it
succeeds but `on_create` fails, the store is unchanged (nothing is inserted
under the newly generated Id) and the reply is the wrapped entity error; if
both succeed, the constructed entity after `on_create`'s mutations is
inserted under the new Id and the reply is that Id. -/
theorem create_paths
    (impl : ActorImpl Entity Create Update Action ActionResult Context Error)
    (context : Context) (s : ActorState Entity) (p : Create) :
    (∀ e, impl.from_create_params s.next_id p = Except.error e →
        (handleMsg impl context s (.create p)).1.store = s.store
        ∧ (handleMsg impl context s (.create p)).2
            = Except.error (FrameworkError.EntityError e))
    ∧ (∀ item e, impl.from_create_params s.next_id p = Except.ok item →
        (impl.on_create item context).2 = some e →
        (handleMsg impl context s (.create p)).1.store = s.store
        ∧ (handleMsg impl context s (.create p)).2
            = Except.error (FrameworkError.EntityError e))
    ∧ (∀ item, impl.from_create_params s.next_id p = Except.ok item →
        (impl.on_create item context).2 = none →
        (handleMsg impl context s (.create p)).1.store
          = storeInsert s.store s.next_id (impl.on_create item context).1
        ∧ storeGet (handleMsg impl context s (.create p)).1.store s.next_id
          = some (impl.on_create item context).1
        ∧ (handleMsg impl context s (.create p)).2
          = Except.ok (Reply.created s.next_id)) := by
  refine ⟨?_, ?_, ?_⟩
  · intro e hc
    simp [handleMsg, hc]
  · intro item e hc h2
    simp [handleMsg, hc, h2]
  · intro item hc h2
    simp [handleMsg, hc, h2, storeGet_storeInsert_self]

/-- Witness for `create_paths` at concrete inputs: a failing constructor
(`failImpl`) leaves the store empty and replies the wrapped error; a
successful Create (`unitImpl`) replies the generated Id `1`. -/
theorem create_paths_witness :
    (handleMsg failImpl () (initState Unit) (Request.create ())).1.store = []
    ∧ (handleMsg failImpl () (initState Unit) (Request.create ())).2
        = Except.error (FrameworkError.EntityError ())
    ∧ (handleMsg unitImpl () (initState Unit) (Request.create ())).2
        = Except.ok (Reply.created 1) := by
  have hf := (create_paths failImpl () (initState Unit) ()).1 () rfl
  have hu := (create_paths unitImpl () (initState Unit) ()).2.2 () rfl rfl
  exact ⟨hf.1, hf.2, hu.2.2⟩

/-- Claim C3: for an Id absent from the store, Get replies `Ok(None)`,
Update, Delete and Action reply `Err(NotFound)`, and in all four cases the
state is returned unchanged.  The implementation `impl` is universally
quantified and never applied in the conclusion, so no lifecycle hook can
influence (or be invoked by) any of the four outcomes. -/
theorem missing_id_requests
    (impl : ActorImpl Entity Create Update Action ActionResult Context Error)
    (context : Context) (s : ActorState Entity) (id : Nat)
    (upd : Update) (act : Action)
    (h : storeGet s.store id = none) :
    handleMsg impl context s (.get id) = (s, Except.ok (Reply.got none))
    ∧ handleMsg impl context s (.update id upd)
        = (s, Except.error (FrameworkError.NotFound id))
    ∧ handleMsg impl context s (.delete id)
        = (s, Except.error (FrameworkError.NotFound id))
    ∧ handleMsg impl context s (.action id act)
        = (s, Except.error (FrameworkError.NotFound id)) := by
  refine ⟨?_, ?_, ?_, ?_⟩ <;> simp [handleMsg, h]

/-- Witness for `missing_id_requests` at a concrete input: id `7` was never
inserted into the fresh store. -/
theorem missing_id_requests_witness :
    handleMsg unitImpl () (initState Unit) (Request.get 7)
      = (initState Unit, Except.ok (Reply.got none))
    ∧ handleMsg unitImpl () (initState Unit) (Request.delete 7)
      = (initState Unit, Except.error (FrameworkError.NotFound 7)) := by
  have h := missing_id_requests unitImpl () (initState Unit) 7 () () rfl
  exact ⟨h.1, h.2.2.1⟩

/-- Claim C4 counterexample: the claim is false as stated.  `next_id` is a
`u32` and `self.next_id += 1` wraps modulo `2 ^ 32`, so on a run of
`2 ^ 32 + 1` Create requests (all succeeding, `unitImpl`) the first Create
and Create number `2 ^ 32` both succeed and both reply with the same Id
`1`. -/
theorem create_id_wraps :
    ((runMsgs unitImpl () (initState Unit)
        (List.replicate (u32Mod + 1) (Request.create ()))).2)[0]?
      = some (Except.ok (Reply.created 1))
    ∧ ((runMsgs unitImpl () (initState Unit)
        (List.replicate (u32Mod + 1) (Request.create ()))).2)[u32Mod]?
      = some (Except.ok (Reply.created 1)) := by
  rw [unit_run_replies (u32Mod + 1) (initState Unit) (by norm_num [initState, u32Mod])]
  constructor
  · rw [List.getElem?_map, List.getElem?_range (by norm_num)]
    norm_num [initState, u32Mod]
  · rw [List.getElem?_map, List.getElem?_range (Nat.lt_succ_self u32Mod)]
    norm_num [initState, u32Mod]

/-- Claim C4 (amended): among the first `2 ^ 32` Create requests handled by
one worker the generated Ids are pairwise distinct (the counter starts at 1
and increases by 1 modulo `2 ^ 32` per Create, so every successful reply in
that window is fresh); beyond `2 ^ 32` Creates the `u32` counter wraps and
Ids repeat.  Every successful Create replies exactly with the Id generated
from the counter. -/
theorem create_ids_distinct
    (impl : ActorImpl Entity Create Update Action ActionResult Context Error)
    (context : Context) (ms : List (Request Create Update Action))
    (h : countCreates ms ≤ u32Mod) :
    (issuedIds impl context (initState Entity) ms).Nodup
    ∧ (∀ (s : ActorState Entity) (p : Create) (s' : ActorState Entity)
        (r : Reply Entity ActionResult),
        handleMsg impl context s (.create p) = (s', Except.ok r)
        → r = Reply.created s.next_id) := by
  constructor
  · rw [issuedIds_closed_form impl context ms (initState Entity)
      (by norm_num [initState, u32Mod])]
    exact range_map_mod_nodup _ _ h
  · intro s p s' r heq
    rcases hc : impl.from_create_params s.next_id p with e | item
    · simp [handleMsg, hc] at heq
    · rcases h2 : (impl.on_create item context).2 with _ | e
      · simp [handleMsg, hc, h2] at heq
        exact heq.2.symm
      · simp [handleMsg, hc, h2] at heq

/-- Witness for `create_ids_distinct` at a concrete input: two Creates on a
fresh worker issue the distinct Ids 1 and 2. -/
theorem create_ids_distinct_witness :
    (issuedIds unitImpl () (initState Unit) [Request.create (), Request.create ()]).Nodup := by
  exact (create_ids_distinct unitImpl () [Request.create (), Request.create ()]
    (by norm_num [countCreates, u32Mod])).1

/-- Claim C5: on a Delete request for a present Id, a failing `on_delete`
leaves the whole state unchanged (the entity is still retrievable by Get
with unchanged state) and the reply is the wrapped entity error; a
successful `on_delete` removes the entry and the reply is `Ok(())`. -/
theorem delete_paths
    (impl : ActorImpl Entity Create Update Action ActionResult Context Error)
    (context : Context) (s : ActorState Entity) (id : Nat) (e : Entity)
    (hget : storeGet s.store id = some e) :
    (∀ err, impl.on_delete e context = some err →
        handleMsg impl context s (.delete id)
          = (s, Except.error (FrameworkError.EntityError err))
        ∧ (handleMsg impl context
            (handleMsg impl context s (.delete id)).1 (.get id)).2
          = Except.ok (Reply.got (some e)))
    ∧ (impl.on_delete e context = none →
        (handleMsg impl context s (.delete id)).1.store = storeRemove s.store id
        ∧ storeGet (handleMsg impl context s (.delete id)).1.store id = none
        ∧ (handleMsg impl context s (.delete id)).2 = Except.ok Reply.deleted) := by
  constructor
  · intro err herr
    constructor
    · simp [handleMsg, hget, herr]
    · simp [handleMsg, hget, herr]
  · intro hok
    simp [handleMsg, hget, hok, storeGet_storeRemove_self]

/-- Witness for `delete_paths` at concrete inputs: with `delErrImpl` the
entity under id `1` survives the failed Delete and is still returned by Get;
with `unitImpl` the Delete removes it and replies `Ok(())`. -/
theorem delete_paths_witness :
    (handleMsg delErrImpl () (ActorState.mk [(1, ())] 2) (Request.delete 1)).2
      = Except.error (FrameworkError.EntityError ())
    ∧ storeGet (handleMsg unitImpl () (ActorState.mk [(1, ())] 2)
        (Request.delete 1)).1.store 1 = none := by
  have hf := (delete_paths delErrImpl () (ActorState.mk [(1, ())] 2) 1 () rfl).1 () rfl
  have hs := (delete_paths unitImpl () (ActorState.mk [(1, ())] 2) 1 () rfl).2 rfl
  constructor
  · rw [hf.1]
  · exact hs.2.1

/-- Claim C6: on an Action request for a present Id the entry is still
present under that Id afterwards, whether `handle_action` returned `Ok` or
`Err`; the stored value is the entity state `handle_action` left behind, and
the reply is the action result or the wrapped entity error. -/
theorem action_keeps_entry
    (impl : ActorImpl Entity Create Update Action ActionResult Context Error)
    (context : Context) (s : ActorState Entity) (id : Nat) (act : Action)
    (e : Entity)
    (hget : storeGet s.store id = some e) :
    storeGet (handleMsg impl context s (.action id act)).1.store id
      = some ((impl.handle_action e act context).1)
    ∧ (storeGet (handleMsg impl context s (.action id act)).1.store id).isSome = true
    ∧ (handleMsg impl context s (.action id act)).2
      = (match (impl.handle_action e act context).2 with
         | Except.ok r => Except.ok (Reply.acted r)
         | Except.error err => Except.error (FrameworkError.EntityError err)) := by
  refine ⟨?_, ?_, ?_⟩
  · simp [handleMsg, hget, storeGet_storeInsert_self]
  · simp [handleMsg, hget, storeGet_storeInsert_self]
  · simp [handleMsg, hget]

/-- Witness for `action_keeps_entry` at a concrete input: with `actErrImpl`
(which mutates the entity and then fails) the entry under id `1` is still
present after the Action, holding the mutated state `6`. -/
theorem action_keeps_entry_witness :
    storeGet (handleMsg actErrImpl () (ActorState.mk [(1, 5)] 2)
        (Request.action 1 ())).1.store 1 = some 6
    ∧ (handleMsg actErrImpl () (ActorState.mk [(1, 5)] 2) (Request.action 1 ())).2
        = Except.error (FrameworkError.EntityError ()) := by
  have h := action_keeps_entry actErrImpl () (ActorState.mk [(1, 5)] 2) 1 () 5 rfl
  exact ⟨h.1, h.2.2⟩

/-- Claim C7: each of the five client operations returns `ActorClosed` when
the mailbox send fails, regardless of what would have arrived on the reply
slot (the reply is never awaited); returns `ActorDropped` when the send
succeeds but the reply slot is dropped without a value; and otherwise
returns exactly the `Result` the worker sent into the slot. -/
theorem client_call_contract (Entity ActionResult Error : Type) :
    (∀ reply : Option (Except (FrameworkError Error) Nat),
        create_call SendOutcome.closed reply = Except.error FrameworkError.ActorClosed)
    ∧ create_call SendOutcome.ok (none : Option (Except (FrameworkError Error) Nat))
        = Except.error FrameworkError.ActorDropped
    ∧ (∀ r : Except (FrameworkError Error) Nat, create_call SendOutcome.ok (some r) = r)
    ∧ (∀ reply : Option (Except (FrameworkError Error) (Option Entity)),
        get_call SendOutcome.closed reply = Except.error FrameworkError.ActorClosed)
    ∧ get_call SendOutcome.ok (none : Option (Except (FrameworkError Error) (Option Entity)))
        = Except.error FrameworkError.ActorDropped
    ∧ (∀ r : Except (FrameworkError Error) (Option Entity),
        get_call SendOutcome.ok (some r) = r)
    ∧ (∀ reply : Option (Except (FrameworkError Error) Entity),
        update_call SendOutcome.closed reply = Except.error FrameworkError.ActorClosed)
    ∧ update_call SendOutcome.ok (none : Option (Except (FrameworkError Error) Entity))
        = Except.error FrameworkError.ActorDropped
    ∧ (∀ r : Except (FrameworkError Error) Entity, update_call SendOutcome.ok (some r) = r)
    ∧ (∀ reply : Option (Except (FrameworkError Error) Unit),
        delete_call SendOutcome.closed reply = Except.error FrameworkError.ActorClosed)
    ∧ delete_call SendOutcome.ok (none : Option (Except (FrameworkError Error) Unit))
        = Except.error FrameworkError.ActorDropped
    ∧ (∀ r : Except (FrameworkError Error) Unit, delete_call SendOutcome.ok (some r) = r)
    ∧ (∀ reply : Option (Except (FrameworkError Error) ActionResult),
        perform_action_call SendOutcome.closed reply
          = Except.error FrameworkError.ActorClosed)
    ∧ perform_action_call SendOutcome.ok
        (none : Option (Except (FrameworkError Error) ActionResult))
        = Except.error FrameworkError.ActorDropped
    ∧ (∀ r : Except (FrameworkError Error) ActionResult,
        perform_action_call SendOutcome.ok (some r) = r) := by
  exact ⟨fun _ => rfl, rfl, fun _ => rfl, fun _ => rfl, rfl, fun _ => rfl,
    fun _ => rfl, rfl, fun _ => rfl, fun _ => rfl, rfl, fun _ => rfl,
    fun _ => rfl, rfl, fun _ => rfl⟩

/-- Claim C8: the mock responder pops exactly one entry from the front of
the expectation queue; when the popped entry's operation kind matches the
request's kind it replies with exactly the canned result of that entry and
leaves the rest of the queue (for all five kinds the request and expectation
payloads are quantified independently, so matching never inspects payloads);
when the kinds differ or the queue is empty it panics (modelled as `none`).
The last conjunct is the scripted round trip: a client call whose reply slot
receives the canned `Ok x` returns exactly `Ok x`. -/
theorem mock_responder_contract (Entity Create Update Action ActionResult Error : Type) :
    (∀ (p : Create) (resp : Except (FrameworkError Error) Nat)
        (rest : List (Expectation Entity ActionResult Error)),
        mockRespond (Request.create p : Request Create Update Action)
            (Expectation.create resp :: rest)
          = some (MockReply.created resp, rest))
    ∧ (∀ (i j : Nat) (resp : Except (FrameworkError Error) (Option Entity))
        (rest : List (Expectation Entity ActionResult Error)),
        mockRespond (Request.get i : Request Create Update Action)
            (Expectation.get j resp :: rest)
          = some (MockReply.got resp, rest))
    ∧ (∀ (i j : Nat) (u : Update) (resp : Except (FrameworkError Error) Entity)
        (rest : List (Expectation Entity ActionResult Error)),
        mockRespond (Request.update i u : Request Create Update Action)
            (Expectation.update j resp :: rest)
          = some (MockReply.updated resp, rest))
    ∧ (∀ (i j : Nat) (resp : Except (FrameworkError Error) Unit)
        (rest : List (Expectation Entity ActionResult Error)),
        mockRespond (Request.delete i : Request Create Update Action)
            (Expectation.delete j resp :: rest)
          = some (MockReply.deleted resp, rest))
    ∧ (∀ (i j : Nat) (a : Action) (resp : Except (FrameworkError Error) ActionResult)
        (rest : List (Expectation Entity ActionResult Error)),
        mockRespond (Request.action i a : Request Create Update Action)
            (Expectation.action j resp :: rest)
          = some (MockReply.acted resp, rest))
    ∧ (∀ req : Request Create Update Action,
        mockRespond req ([] : List (Expectation Entity ActionResult Error)) = none)
    ∧ (∀ (req : Request Create Update Action)
        (x : Expectation Entity ActionResult Error)
        (rest : List (Expectation Entity ActionResult Error)),
        reqKind req ≠ expKind x → mockRespond req (x :: rest) = none)
    ∧ (∀ x : Nat, create_call SendOutcome.ok
        (some (Except.ok x : Except (FrameworkError Error) Nat)) = Except.ok x) := by
  refine ⟨fun _ _ _ => rfl, fun _ _ _ _ => rfl, fun _ _ _ _ _ => rfl,
    fun _ _ _ _ => rfl, fun _ _ _ _ _ => rfl, ?_, ?_, fun _ => rfl⟩
  · intro req
    cases req <;> rfl
  · intro req x rest h
    cases req <;> cases x <;> first
      | rfl
      | exact absurd rfl h

/-- Witness for `mock_responder_contract` at a concrete input: a Create
request against a queue whose front entry is a Get expectation is a kind
mismatch and panics. -/
theorem mock_responder_contract_witness :
    mockRespond (Request.create () : Request Unit Unit Unit)
        ([Expectation.get 1 (Except.ok none)] : List (Expectation Unit Unit Unit))
      = none := by
  exact (mock_responder_contract Unit Unit Unit Unit Unit Unit).2.2.2.2.2.2.1
    (Request.create ()) (Expectation.get 1 (Except.ok none)) [] (by decide)

/-- Claim C9: `verify()` panics exactly when the expectation queue is
non-empty at the time of the call. -/
theorem verify_iff_leftover (Entity ActionResult Error : Type)
    (q : List (Expectation Entity ActionResult Error)) :
    verifyFails q = true ↔ q ≠ [] := by
  cases q <;> simp [verifyFails]

lemma runMsgs_cons_replies
    (impl : ActorImpl Entity Create Update Action ActionResult Context Error)
    (context : Context) (s : ActorState Entity)
    (m : Request Create Update Action) (ms : List (Request Create Update Action)) :
    (runMsgs impl context s (m :: ms)).2
      = (handleMsg impl context s m).2
        :: (runMsgs impl context (handleMsg impl context s m).1 ms).2 := rfl

/-- Claim C10 counterexample: the claim is false as stated.  With a
constructor that always fails (`failImpl`), the first Create fails and
consumes Id `1`, yet on a run of `2 ^ 32 + 1` Create requests the `u32`
counter wraps and Id `1` is generated again for Create number `2 ^ 32`: an
Id consumed by a failed Create is issued to a later Create. -/
theorem failed_id_reissued :
    ((runMsgs failImpl () (initState Unit)
        (List.replicate (u32Mod + 1) (Request.create ()))).2)[0]?
      = some (Except.error (FrameworkError.EntityError ()))
    ∧ (issuedIds failImpl () (initState Unit)
        (List.replicate (u32Mod + 1) (Request.create ())))[0]?
      = some 1
    ∧ (issuedIds failImpl () (initState Unit)
        (List.replicate (u32Mod + 1) (Request.create ())))[u32Mod]?
      = some 1 := by
  refine ⟨?_, ?_, ?_⟩
  · rw [List.replicate_succ, runMsgs_cons_replies, List.getElem?_cons_zero]
    rfl
  · rw [issuedIds_closed_form failImpl () _ (initState Unit)
      (by norm_num [initState, u32Mod])]
    rw [countCreates_replicate]
    rw [List.getElem?_map, List.getElem?_range (by norm_num)]
    norm_num [initState, u32Mod]
  · rw [issuedIds_closed_form failImpl () _ (initState Unit)
      (by norm_num [initState, u32Mod])]
    rw [countCreates_replicate]
    rw [List.getElem?_map, List.getElem?_range (Nat.lt_succ_self u32Mod)]
    norm_num [initState, u32Mod]

/-- Claim C10 (amended): the Create path advances the counter before
`from_create_params` is consulted, so a Create whose constructor fails still
consumes its generated Id (counter incremented modulo `2 ^ 32`, store
unchanged, wrapped error replied); and within the first `2 ^ 32` Creates of
one worker no two Creates — failed or not — are ever issued the same Id.
Beyond `2 ^ 32` Creates the `u32` counter wraps and failed Ids are reused. -/
theorem failed_create_consumes_id
    (impl : ActorImpl Entity Create Update Action ActionResult Context Error)
    (context : Context) :
    (∀ (s : ActorState Entity) (p : Create) (e : Error),
        impl.from_create_params s.next_id p = Except.error e →
        (handleMsg impl context s (.create p)).1.next_id = (s.next_id + 1) % u32Mod
        ∧ (handleMsg impl context s (.create p)).1.store = s.store
        ∧ (handleMsg impl context s (.create p)).2
            = Except.error (FrameworkError.EntityError e))
    ∧ (∀ (ms : List (Request Create Update Action)) (i j : Nat),
        countCreates ms ≤ u32Mod → i < j → j < countCreates ms →
        (issuedIds impl context (initState Entity) ms)[i]?
          ≠ (issuedIds impl context (initState Entity) ms)[j]?) := by
  constructor
  · intro s p e hc
    refine ⟨?_, ?_, ?_⟩ <;> simp [handleMsg, hc]
  · intro ms i j hc hij hj
    rw [issuedIds_closed_form impl context ms (initState Entity)
      (by norm_num [initState, u32Mod])]
    rw [List.getElem?_map, List.getElem?_map,
      List.getElem?_range (lt_trans hij hj), List.getElem?_range hj]
    simp only [Option.map_some']
    intro hsome
    have heq : ((initState Entity).next_id + i) % u32Mod
        = ((initState Entity).next_id + j) % u32Mod := Option.some.inj hsome
    have hmod : i % u32Mod = j % u32Mod :=
      Nat.ModEq.add_left_cancel' (initState Entity).next_id heq
    rw [Nat.mod_eq_of_lt (lt_of_lt_of_le (lt_trans hij hj) hc),
      Nat.mod_eq_of_lt (lt_of_lt_of_le hj hc)] at hmod
    omega

/-- Witness for `failed_create_consumes_id` at concrete inputs: a failing
Create on a fresh worker advances the counter from 1 to 2 while storing
nothing, and the Ids issued to the first two Creates of a run differ. -/
theorem failed_create_consumes_id_witness :
    ((handleMsg failImpl () (initState Unit) (Request.create ())).1.next_id
        = (1 + 1) % u32Mod
      ∧ (handleMsg failImpl () (initState Unit) (Request.create ())).1.store = [])
    ∧ (issuedIds unitImpl () (initState Unit) [Request.create (), Request.create ()])[0]?
      ≠ (issuedIds unitImpl () (initState Unit) [Request.create (), Request.create ()])[1]? := by
  constructor
  · have h := (failed_create_consumes_id failImpl ()).1 (initState Unit) () () rfl
    exact ⟨h.1, h.2.1⟩
  · exact (failed_create_consumes_id unitImpl ()).2
      [Request.create (), Request.create ()] 0 1
      (by norm_num [countCreates, u32Mod]) (by norm_num)
      (by norm_num [countCreates])
